import Mathlib

/-
Shallow embedding of the imgproxy request-to-bytes pipeline.

The repository mixes three historical revisions of the same Go package:
 * the v1 era: `server.go` (its `parsePath`, `checkSecret`, `ServeHTTP`),
   `processing_options.go` (`applyWidthOption`, `applyHeightOption`, ...),
   and the first section of `process.go` (`calcShink`, ...);
 * the v2.0 era: the third section of `process.go`
   (`calcShink`, `calcCrop`, `transformGif`, ...);
 * the v2.7 era: `unnamed/part_001` (`limitReader`, `checkDimensions`,
   `readAndCheckImage`) and the second section of `process.go`
   (`calcScale`, `calcJpegShink`, `calcCrop`, `transformAnimated`,
   `processImage`).

Go `int` is modelled by `Int` (no arithmetic here ever nears 2^63, except in
`goAtoi`, where the 64-bit clamping of `strconv.Atoi` is modelled
explicitly).  Go `float64` values are modelled by `ℚ`, idealising IEEE
arithmetic by exact rational arithmetic; `int(f)` truncation toward zero is
modelled by `goTruncQ`.  Go integer division and `%` truncate toward zero
and are modelled by `Int.tdiv`.  Byte strings are modelled by `List Char`
or `String` as convenient.  Fallible Go functions returning `error` are
modelled with `Except`/`Option`.
-/

/-! ### Errors (errors.go)

`imgproxyError` carries the HTTP status code, the internal message and the
public message, exactly the three fields the Go struct carries. -/

structure imgproxyError where
  statusCode : Int
  message : String
  publicMessage : String
deriving DecidableEq

/-- `newError(status, msg, pub)` from errors.go. -/
def newError (status : Int) (msg pub : String) : imgproxyError :=
  ⟨status, msg, pub⟩

/-- Modelled from the spec: `newUnexpectedError` (errors.go is not in the
sources); §7 maps unexpected backend failures to a 500 response. -/
def newUnexpectedError (msg : String) : imgproxyError :=
  newError 500 msg "Internal error"

/-! ### Download guards (unnamed/part_001) -/

def errSourceDimensionsTooBig : imgproxyError :=
  newError 422 "Source image dimensions are too big" "Invalid source image"

def errSourceResolutionTooBig : imgproxyError :=
  newError 422 "Source image resolution is too big" "Invalid source image"

def errSourceFileTooBig : imgproxyError :=
  newError 422 "Source image file is too big" "Invalid source image"

def errSourceImageTypeNotSupported : imgproxyError :=
  newError 422 "Source image type not supported" "Invalid source image"

def msgSourceImageIsUnreachable : String := "Source image is unreachable"

/-- `checkDimensions` (unnamed/part_001, lines 94-104).  The two `conf`
fields it reads (`MaxSrcDimension`, `MaxSrcResolution`) are passed as
explicit arguments. -/
def checkDimensions (maxSrcDimension maxSrcResolution width height : Int) :
    Option imgproxyError :=
  if 0 < maxSrcDimension ∧ (maxSrcDimension < width ∨ maxSrcDimension < height) then
    some errSourceDimensionsTooBig
  else if maxSrcResolution < width * height then
    some errSourceResolutionTooBig
  else
    none

/-! ### Bearer secret (server.go, lines 189-194) -/

/-- The literal `"Bearer "` prefix checked by `checkSecret`. -/
def bearerTok : List Char := "Bearer ".toList

/-- `strings.TrimPrefix`: drops `pre` from the front of `s` when it is a
prefix of `s`, otherwise returns `s` unchanged. -/
def goTrimPref (pre s : List Char) : List Char :=
  if pre.isPrefixOf s then s.drop pre.length else s

/-- `crypto/subtle.ConstantTimeCompare(a, b) == 1`:  the Go function
returns 1 exactly when the two byte slices have equal length and equal
contents, i.e. exactly when they are equal. -/
def constantTimeCompareIsOne (a b : List Char) : Bool := a == b

/-- `checkSecret` (server.go, lines 189-194).  `conf.Secret` is passed as
the explicit argument `secret`. -/
def checkSecret (secret s : List Char) : Bool :=
  if secret.length = 0 then true
  else bearerTok.isPrefixOf s && constantTimeCompareIsOne (goTrimPref bearerTok s) secret

/-! ### strconv.Atoi (Go standard library, used by the parsers)

`strconv.Atoi` accepts an optional sign followed by at least one decimal
digit; on a syntax error it returns `(0, ErrSyntax)`, and on 64-bit
overflow it returns the clamped value together with `ErrRange`.  The
boolean of the returned pair means `err == nil`. -/

def goMaxInt64 : Int := 2 ^ 63 - 1

def goMinInt64 : Int := -(2 ^ 63)

def decDigitVal (c : Char) : Option Nat :=
  if '0' ≤ c ∧ c ≤ '9' then some (c.toNat - '0'.toNat) else none

def readDecDigits : List Char → Nat → Option Nat
  | [], n => some n
  | c :: cs, n =>
    match decDigitVal c with
    | some d => readDecDigits cs (n * 10 + d)
    | none => none

def goAtoi (s : String) : Int × Bool :=
  let cs := s.toList
  let signDigits : Int × List Char :=
    match cs with
    | '+' :: rest => (1, rest)
    | '-' :: rest => (-1, rest)
    | _ => (1, cs)
  match signDigits.2 with
  | [] => (0, false)
  | ds =>
    match readDecDigits ds 0 with
    | none => (0, false)
    | some n =>
      let v : Int := signDigits.1 * (n : Int)
      if goMaxInt64 < v then (goMaxInt64, false)
      else if v < goMinInt64 then (goMinInt64, false)
      else (v, true)

/-! ### v1-era data model (process.go, first section, lines 19-78) -/

inductive imageTypeV1
  | unknown
  | jpeg
  | png
  | webp
  | gif
deriving DecidableEq

inductive gravityTypeV1
  | center
  | north
  | east
  | south
  | west
  | smart
deriving DecidableEq

inductive resizeTypeV1
  | fit
  | fill
  | crop
deriving DecidableEq

/-- The v1-era `processingOptions` struct (processing_options.go, lines
19-26 and process.go, lines 71-78). -/
structure processingOptions where
  Resize : resizeTypeV1
  Width : Int
  Height : Int
  Gravity : gravityTypeV1
  Enlarge : Bool
  Format : imageTypeV1
deriving DecidableEq

/-- `defaultProcessingOptions` (processing_options.go, lines 28-37). -/
def defaultProcessingOptions : processingOptions :=
  ⟨.fit, 0, 0, .center, false, .jpeg⟩

/-- The Go zero value of `processingOptions` (every enum is its zero
constant, so `Resize = FIT`, `Gravity = CENTER`, `Format = UNKNOWN`). -/
def zeroProcessingOptions : processingOptions :=
  ⟨.fit, 0, 0, .center, false, .unknown⟩

/-- The `resizeTypes` map (processing_options.go, lines 13-17). -/
def resizeTypes : String → Option resizeTypeV1
  | "fit" => some .fit
  | "fill" => some .fill
  | "crop" => some .crop
  | _ => none

/-- The `gravityTypes` map (process.go, lines 48-55). -/
def gravityTypes : String → Option gravityTypeV1
  | "ce" => some .center
  | "no" => some .north
  | "ea" => some .east
  | "so" => some .south
  | "we" => some .west
  | "sm" => some .smart
  | _ => none

/-- The `imageTypes` map (process.go, lines 29-35). -/
def imageTypes : String → Option imageTypeV1
  | "jpeg" => some .jpeg
  | "jpg" => some .jpeg
  | "png" => some .png
  | "webp" => some .webp
  | "gif" => some .gif
  | _ => none

/-! ### Width / height options (processing_options.go, lines 64-90) -/

/-- `applyWidthOption` (processing_options.go, lines 64-76).  Note the
source condition `err == nil || w >= 0`: when `strconv.Atoi` fails with a
syntax error it returns `w = 0`, so the first branch is taken and the
field is overwritten with 0 without an error. -/
def applyWidthOption (po : processingOptions) (args : List String) :
    Except String processingOptions :=
  if 1 < args.length then Except.error "Invalid width arguments"
  else
    match args with
    | [] => Except.error "index out of range"
    | a :: _ =>
      let wr := goAtoi a
      if wr.2 || 0 ≤ wr.1 then Except.ok { po with Width := wr.1 }
      else Except.error ("Invalid width: " ++ a)

/-- `applyHeightOption` (processing_options.go, lines 78-90).  The source
condition is `err == nil || po.Height >= 0` — it consults the *current*
`po.Height`, not the parsed value. -/
def applyHeightOption (po : processingOptions) (args : List String) :
    Except String processingOptions :=
  if 1 < args.length then Except.error "Invalid height arguments"
  else
    match args with
    | [] => Except.error "index out of range"
    | a :: _ =>
      let hr := goAtoi a
      if hr.2 || 0 ≤ po.Height then Except.ok { po with Height := hr.1 }
      else Except.error ("Invalid height: " ++ a)

/-! ### The v1 URL parser (server.go, lines 66-125)

`validatePath` (crypto.go) and `base64.RawURLEncoding.DecodeString` are not
part of the sources; both are abstracted as function parameters, and
`vipsTypeSupportSave` (a map filled at startup from the linked libvips) is
abstracted as a predicate parameter. -/

/-- The result triple of the Go `parsePath`: the decoded source URL, the
processing options built so far, and the error (if any).  On an error
return the Go function returns the zero-valued `po` it has built so far
alongside the error. -/
structure parseResult where
  url : List Char
  po : processingOptions
  err : Option String
deriving DecidableEq

/-- Modelled from the spec: `validatePath` (crypto.go, not in the sources)
verifies the URL-safe base64 of the truncated `HMAC-SHA256(salt ‖ path,
key)` against every configured key/salt pair and accepts everything when no
keys are configured.  The verification verdict is abstracted as the oracle
`sigOK`; on failure the function returns the error `"Invalid token"`. -/
def validatePathOracle (sigOK : List Char → List Char → Bool)
    (token path : List Char) : Option String :=
  if sigOK token path then none else some "Invalid token"

/-- `parsePath` (server.go, lines 66-125).  `b64` abstracts
`base64.RawURLEncoding.DecodeString` (`none` = decode error) and `saveSupp`
abstracts the `vipsTypeSupportSave` map. -/
def parsePath (sigOK : List Char → List Char → Bool)
    (b64 : List Char → Option (List Char))
    (saveSupp : imageTypeV1 → Bool) (path : List Char) : parseResult :=
  let parts := List.splitOn '/' (goTrimPref ['/'] path)
  if parts.length < 7 then ⟨[], zeroProcessingOptions, some "Invalid path"⟩
  else
    let token := parts.headD []
    match validatePathOracle sigOK token (goTrimPref ('/' :: token) path) with
    | some e => ⟨[], zeroProcessingOptions, some e⟩
    | none =>
      match resizeTypes (String.mk (parts.getD 1 [])) with
      | none => ⟨[], zeroProcessingOptions, some "Invalid resize type"⟩
      | some r =>
        let po1 : processingOptions := { zeroProcessingOptions with Resize := r }
        let wr := goAtoi (String.mk (parts.getD 2 []))
        if ¬wr.2 then ⟨[], { po1 with Width := 0 }, some "Invalid width"⟩
        else
          let po2 := { po1 with Width := wr.1 }
          let hr := goAtoi (String.mk (parts.getD 3 []))
          if ¬hr.2 then ⟨[], { po2 with Height := 0 }, some "Invalid height"⟩
          else
            let po3 := { po2 with Height := hr.1 }
            match gravityTypes (String.mk (parts.getD 4 [])) with
            | none => ⟨[], po3, some "Invalid gravity"⟩
            | some g =>
              let po4 := { po3 with Gravity := g }
              let po5 := { po4 with Enlarge := parts.getD 5 [] ≠ ['0'] }
              let filenameParts := List.splitOn '.' (parts.drop 6).flatten
              let fmt : Option imageTypeV1 :=
                if filenameParts.length < 2 then imageTypes "jpg"
                else imageTypes (String.mk (filenameParts.getD 1 []))
              match fmt with
              | none => ⟨[], po5, some "Invalid image format"⟩
              | some f =>
                let po6 := { po5 with Format := f }
                if ¬saveSupp f then ⟨[], po6, some "Resulting image type not supported"⟩
                else
                  match b64 (filenameParts.headD []) with
                  | none => ⟨[], po6, some "Invalid filename encoding"⟩
                  | some filename => ⟨filename, po6, none⟩

/-- `ServeHTTP` (server.go, lines 245-248) maps *every* `parsePath`
failure to this error value: `newError(404, err.Error(), "Invalid image
url")`. -/
def parsePathFailureError (msg : String) : imgproxyError :=
  newError 404 msg "Invalid image url"

/-! ### The byte-counting limiter and guarded ingestion (unnamed/part_001)

The source stream delivered by the transport is modelled as the list of
results of successive `Read` calls: each `readStep` is the pair of the
number of bytes delivered and the error returned alongside them (`none`
while the stream continues, `eof` at its end, `generic` for transport
failures).  `readErr.tooBig` stands for the `errSourceFileTooBig` value the
limiter injects. -/

inductive readErr
  | eof
  | tooBig
  | generic (msg : String)
deriving DecidableEq

/-- `err.Error()` of the modelled read errors. -/
def readErrMsg : readErr → String
  | .eof => "EOF"
  | .tooBig => errSourceFileTooBig.message
  | .generic m => m

structure readStep where
  n : Nat
  err : Option readErr
deriving DecidableEq

/-- One `limitReader.Read` call (unnamed/part_001, lines 38-47): `left` is
the remaining budget, the result is the read result passed on to the
caller together with the new budget. -/
def limitRead (left : Int) (s : readStep) : readStep × Int :=
  let left2 := left - (s.n : Int)
  if s.err = none ∧ left2 < 0 then (⟨s.n, some .tooBig⟩, left2) else (s, left2)

/-- The whole stream as seen through a `limitReader` starting with budget
`left`. -/
def limitRun (left : Int) : List readStep → List readStep
  | [] => []
  | s :: rest =>
    let r := limitRead left s
    r.1 :: limitRun r.2 rest

/-- The first error a consumer reading the stream to its end encounters. -/
def firstErr : List readStep → Option readErr
  | [] => none
  | s :: rest =>
    match s.err with
    | some e => some e
    | none => firstErr rest

/-- `bytes.Buffer.ReadFrom` reads until the first error and treats `io.EOF`
(and a stream that simply stops producing) as success. -/
def readFromResult (steps : List readStep) : Option readErr :=
  match firstErr steps with
  | none => none
  | some .eof => none
  | some e => some e

/-- Modelled from the spec: the header prober of §4.D
(`imagemeta.DecodeMeta` plus the type and dimension checks of
`checkTypeAndDimensions`, whose decoding internals are not in the sources)
is abstracted as the number of `Read` calls it consumes through the tee and
its verdict on the bytes it saw (`none` = recognised type within the
configured limits, `some e` = the error `checkTypeAndDimensions` returns). -/
structure probeSpec where
  reads : Nat
  verdict : Option imgproxyError
deriving DecidableEq

/-- `readAndCheckImage` (unnamed/part_001, lines 127-151) over the modelled
stream.  `maxSrcFileSize` and `contentLength` are the `conf` field and the
argument of the Go function.  The header probe consumes the first
`probe.reads` results through the tee; a read error surfacing inside the
probe is mapped the way `checkTypeAndDimensions` maps a non-`ErrFormat`
`DecodeMeta` failure (`newUnexpectedError`).  The final `buf.ReadFrom`
failure is wrapped exactly as in the source:
`newError(404, err.Error(), msgSourceImageIsUnreachable)`. -/
def readAndCheckImage (maxSrcFileSize contentLength : Int)
    (stream : List readStep) (probe : probeSpec) : Option imgproxyError :=
  if 0 < maxSrcFileSize ∧ maxSrcFileSize < contentLength then some errSourceFileTooBig
  else
    let limited := if 0 < maxSrcFileSize then limitRun maxSrcFileSize stream else stream
    let probeSteps := limited.take probe.reads
    let bodySteps := limited.drop probe.reads
    match firstErr probeSteps with
    | some e => some (newUnexpectedError (readErrMsg e))
    | none =>
      match probe.verdict with
      | some e => some e
      | none =>
        match readFromResult bodySteps with
        | some e => some (newError 404 (readErrMsg e) msgSourceImageIsUnreachable)
        | none => none

/-! ### Rational helpers for Go float64 code -/

/-- Go's `int(f)` conversion: truncation toward zero. -/
def goTruncQ (q : ℚ) : Int := if 0 ≤ q then ⌊q⌋ else -⌊-q⌋

/-! ### v2.7-era data model (the second section of process.go and the
processing-options model it consumes) -/

inductive imageType27
  | unknown
  | jpeg
  | png
  | webp
  | gif
  | ico
  | svg
  | heic
  | bmp
  | tiff
deriving DecidableEq

inductive resizeType27
  | fit
  | fill
  | crop
  | auto
deriving DecidableEq

inductive gravityType27
  | unknownG
  | center
  | north
  | east
  | south
  | west
  | northWest
  | northEast
  | southWest
  | southEast
  | smart
  | focusPoint
deriving DecidableEq

structure gravityOpts where
  gType : gravityType27
  X : ℚ
  Y : ℚ
deriving DecidableEq

structure cropOpts where
  Width : Int
  Height : Int
  Gravity : gravityOpts
deriving DecidableEq

/-- The fields of the v2.7 `processingOptions` used by `calcScale`,
`canScaleOnLoad`, the target-format resolution and `transformAnimated`. -/
structure processingOptionsV2 where
  ResizingType : resizeType27
  Width : Int
  Height : Int
  Dpr : ℚ
  Enlarge : Bool
  Format : imageType27
  PreferWebP : Bool
  EnforceWebP : Bool
  Crop : cropOpts
deriving DecidableEq

/-- The first block of `calcScale` (process.go, second section, lines
595-635): the shrink factor before the enlarge clamp. -/
def calcScaleShrink (width height : Int) (po : processingOptionsV2) : ℚ :=
  let srcW : ℚ := (width : ℚ)
  let srcH : ℚ := (height : ℚ)
  let dstW : ℚ := if po.Width = 0 then srcW else (po.Width : ℚ)
  let dstH : ℚ := if po.Height = 0 then srcH else (po.Height : ℚ)
  if dstW = srcW ∧ dstH = srcH then 1
  else
    let wshrink := srcW / dstW
    let hshrink := srcH / dstH
    let rt : resizeType27 :=
      if po.ResizingType = .auto then
        let srcD := width - height
        let dstD := po.Width - po.Height
        if (0 ≤ srcD ∧ 0 ≤ dstD) ∨ (srcD < 0 ∧ dstD < 0) then .fill else .fit
      else po.ResizingType
    if po.Width = 0 then hshrink
    else if po.Height = 0 then wshrink
    else if rt = .fit then max wshrink hshrink
    else min wshrink hshrink

/-- The enlarge clamp of `calcScale` (process.go, second section, lines
637-639). -/
def calcScaleEnlargeClamp (po : processingOptionsV2) (imgtype : imageType27)
    (shrink : ℚ) : ℚ :=
  if ¬po.Enlarge ∧ shrink < 1 ∧ imgtype ≠ .svg then 1 else shrink

/-- The two source-size clamps at the end of `calcScale` (lines 643-649):
`if shrink > srcW { shrink = srcW }` then the same against `srcH`. -/
def calcScaleSizeClamp (srcW srcH shrink : ℚ) : ℚ :=
  let shrink3 := if srcW < shrink then srcW else shrink
  if srcH < shrink3 then srcH else shrink3

/-- `calcScale` (process.go, second section, lines 592-652): the shrink
factor, the enlarge clamp, the division by `Dpr` and the two source-size
clamps (lines 643-649), returning `1/shrink`. -/
def calcScale (width height : Int) (po : processingOptionsV2)
    (imgtype : imageType27) : ℚ :=
  let shrink1 := calcScaleEnlargeClamp po imgtype (calcScaleShrink width height po)
  let shrink2 := shrink1 / po.Dpr
  1 / calcScaleSizeClamp (width : ℚ) (height : ℚ) shrink2

/-- `canScaleOnLoad` (process.go, second section, lines 654-664);
`conf.DisableShrinkOnLoad` is the first argument. -/
def canScaleOnLoad (disableShrinkOnLoad : Bool) (imgtype : imageType27)
    (scale : ℚ) : Bool :=
  if imgtype = .svg then true
  else if disableShrinkOnLoad || decide (1 ≤ scale) then false
  else decide (imgtype = .jpeg ∨ imgtype = .webp)

set_option linter.unusedVariables false in
/-- `calcJpegShink` (process.go, second section, lines 666-679).  The
`imgtype` parameter is present in the source signature but unused. -/
def calcJpegShink (scale : ℚ) (imgtype : imageType27) : Int :=
  let shrink := goTruncQ (1 / scale)
  if 8 ≤ shrink then 8
  else if 4 ≤ shrink then 4
  else if 2 ≤ shrink then 2
  else 1

/-- `calcShink` (process.go, first section, lines 207-224, the v1
revision). -/
def calcShink (scale : ℚ) (imgtype : imageTypeV1) : Int :=
  let shrink := goTruncQ (1 / scale)
  if imgtype ≠ .jpeg then shrink
  else if 16 ≤ shrink then 8
  else if 8 ≤ shrink then 4
  else if 4 ≤ shrink then 2
  else 1

/-- `calcShink` (process.go, third section, lines 1383-1401, the v2.0
revision). -/
def calcShinkV20 (scale : ℚ) (imgtype : imageTypeV1) : Int :=
  match imgtype with
  | .webp => goTruncQ (1 / scale)
  | .jpeg =>
    let shrink := goTruncQ (1 / scale)
    if 16 ≤ shrink then 8
    else if 8 ≤ shrink then 4
    else if 4 ≤ shrink then 2
    else 1
  | _ => 1

/-- Modelled from the spec: the `scaleInt` helper of the v2.7 revision
(math.go, not in the sources): `int(float64(i) * scale)`. -/
def scaleInt (i : Int) (scale : ℚ) : Int := goTruncQ ((i : ℚ) * scale)

/-- `calcCrop` (process.go, second section, lines 681-717, the v2.7
revision with offsets and focus-point gravity). -/
def calcCrop (width height cropWidth cropHeight : Int) (gravity : gravityOpts) :
    Int × Int :=
  if gravity.gType = .focusPoint then
    let pointX := scaleInt width gravity.X
    let pointY := scaleInt height gravity.Y
    (max 0 (min (pointX - Int.tdiv cropWidth 2) (width - cropWidth)),
     max 0 (min (pointY - Int.tdiv cropHeight 2) (height - cropHeight)))
  else
    let offX := goTruncQ gravity.X
    let offY := goTruncQ gravity.Y
    let left0 := Int.tdiv (width - cropWidth + 1) 2 + offX
    let top0 := Int.tdiv (height - cropHeight + 1) 2 + offY
    let top1 :=
      if gravity.gType = .north ∨ gravity.gType = .northEast ∨ gravity.gType = .northWest
      then 0 + offY else top0
    let left1 :=
      if gravity.gType = .east ∨ gravity.gType = .northEast ∨ gravity.gType = .southEast
      then width - cropWidth - offX else left0
    let top2 :=
      if gravity.gType = .south ∨ gravity.gType = .southEast ∨ gravity.gType = .southWest
      then height - cropHeight - offY else top1
    let left2 :=
      if gravity.gType = .west ∨ gravity.gType = .northWest ∨ gravity.gType = .southWest
      then 0 + offX else left1
    (max 0 (min left2 (width - cropWidth)), max 0 (min top2 (height - cropHeight)))

/-- `calcCrop` (process.go, third section, lines 1403-1434, the v2.0
revision: crop size is `po.Width`/`po.Height`, no offsets, and no final
clamp outside the focus-point branch). -/
def calcCropV20 (width height poWidth poHeight : Int) (gravity : gravityOpts) :
    Int × Int :=
  if gravity.gType = .focusPoint then
    let pointX := goTruncQ ((width : ℚ) * gravity.X)
    let pointY := goTruncQ ((height : ℚ) * gravity.Y)
    (max 0 (min (pointX - Int.tdiv poWidth 2) (width - poWidth)),
     max 0 (min (pointY - Int.tdiv poHeight 2) (height - poHeight)))
  else
    let left0 := Int.tdiv (width - poWidth + 1) 2
    let top0 := Int.tdiv (height - poHeight + 1) 2
    let top1 :=
      if gravity.gType = .north ∨ gravity.gType = .northEast ∨ gravity.gType = .northWest
      then 0 else top0
    let left1 :=
      if gravity.gType = .east ∨ gravity.gType = .northEast ∨ gravity.gType = .southEast
      then width - poWidth else left0
    let top2 :=
      if gravity.gType = .south ∨ gravity.gType = .southEast ∨ gravity.gType = .southWest
      then height - poHeight else top1
    let left2 :=
      if gravity.gType = .west ∨ gravity.gType = .northWest ∨ gravity.gType = .southWest
      then 0 else left1
    (left2, top2)

/-! ### Target-format resolution (process.go, second section) -/

/-- `imageTypeSaveSupport` (process.go, second section, lines 554-556);
the startup-filled `vipsTypeSupportSave` map is the predicate parameter
`saveSupp`. -/
def imageTypeSaveSupport (saveSupp : imageType27 → Bool) (imgtype : imageType27) :
    Bool :=
  imgtype = .svg || saveSupp imgtype

/-- `imageTypeGoodForWeb` (process.go, second section, lines 558-562). -/
def imageTypeGoodForWeb (imgtype : imageType27) : Bool :=
  imgtype ≠ .heic && imgtype ≠ .tiff && imgtype ≠ .bmp

/-- The target-format resolution block of `processImage` (process.go,
second section, lines 1124-1135): `srcType` is `imgdata.Type`, and the
result is the `po.Format` in force after the block. -/
def resolveFormat (saveSupp : imageType27 → Bool) (po : processingOptionsV2)
    (srcType : imageType27) : imageType27 :=
  if po.Format = .unknown then
    if po.PreferWebP && imageTypeSaveSupport saveSupp .webp then .webp
    else if imageTypeSaveSupport saveSupp srcType && imageTypeGoodForWeb srcType then srcType
    else .jpeg
  else if po.EnforceWebP && imageTypeSaveSupport saveSupp .webp then .webp
  else po.Format

/-! ### Animated transforms

`transformAnimated` (process.go, second section, lines 977-1081) and
`transformGif` (process.go, third section, lines 1591-1660) are modelled
over the metadata the vips bindings expose: the raster dimensions and the
`page-height`, `n-pages`, `gif-delay` and `gif-loop` integer fields.  The
per-frame pixel transform (`transformImage` applied to each extracted
frame) is abstracted as the function `tf` from frame dimensions to frame
dimensions; `Extract`, `Arrayjoin`, `SetInt` act on the metadata exactly as
the bindings do (an array-join of `k` equal frames stacks them
vertically). -/

structure animMeta where
  width : Int
  height : Int
  pageHeight : Int
  nPages : Int
  gifDelay : Int
  gifLoop : Int
deriving DecidableEq

/-- `transformAnimated` (process.go, second section, lines 977-1081).
`maxAnimationFrames`, `maxSrcDimension`, `maxSrcResolution` and
`disableShrinkOnLoad` are the `conf` fields read along the way.  A reload
(`img.Load(data, imgtype, 1, scale, framesCount)`) yields pages of the
abstract dimensions `reloadW × reloadPageH` while the gif metadata, read
from the same source bytes, is unchanged.  `GetInt` on `page-height`,
`gif-delay` and `gif-loop` is assumed to succeed (the caller only enters
this path for animated images carrying these fields). -/
def transformAnimated (maxAnimationFrames maxSrcDimension maxSrcResolution : Int)
    (disableShrinkOnLoad : Bool) (po : processingOptionsV2)
    (imgtype : imageType27) (img : animMeta) (reloadW reloadPageH : Int)
    (tf : Int → Int → Int × Int) : Except imgproxyError animMeta :=
  let imgWidth := img.width
  let frameHeight := img.pageHeight
  let framesCount := min (Int.tdiv img.height frameHeight) maxAnimationFrames
  match checkDimensions maxSrcDimension maxSrcResolution imgWidth (frameHeight * framesCount) with
  | some e => Except.error e
  | none =>
    let img2 : animMeta :=
      if 0 < img.nPages then
        let scale : ℚ :=
          if po.Crop.Width = 0 ∧ po.Crop.Height = 0 then
            calcScale imgWidth frameHeight po imgtype
          else 1
        if framesCount < img.nPages ∨ canScaleOnLoad disableShrinkOnLoad imgtype scale then
          { width := reloadW, height := reloadPageH * framesCount,
            pageHeight := reloadPageH, nPages := framesCount,
            gifDelay := img.gifDelay, gifLoop := img.gifLoop }
        else img
      else img
    let delay := img2.gifDelay
    let loop := img2.gifLoop
    let frame0 := tf img2.width img2.pageHeight
    Except.ok
      { width := frame0.1, height := frame0.2 * framesCount,
        pageHeight := frame0.2, nPages := framesCount,
        gifDelay := delay, gifLoop := loop }

/-- `transformGif` (process.go, third section, lines 1591-1660): every
frame of the source is processed (there is no cap on the frame count in
this revision) and `page-height`, `gif-delay` and `gif-loop` are restored
on the joined image; `n-pages` is not set. -/
def transformGif (maxSrcDimension maxSrcResolution : Int) (img : animMeta)
    (tf : Int → Int → Int × Int) : Except imgproxyError animMeta :=
  match checkDimensions maxSrcDimension maxSrcResolution img.width img.height with
  | some e => Except.error e
  | none =>
    let frameHeight := img.pageHeight
    let delay := img.gifDelay
    let loop := img.gifLoop
    let framesCount := Int.tdiv img.height frameHeight
    let frame0 := tf img.width frameHeight
    Except.ok
      { width := frame0.1, height := frame0.2 * framesCount,
        pageHeight := frame0.2, nPages := img.nPages,
        gifDelay := delay, gifLoop := loop }

/-! ### Spec-side definitions used for refinement statements -/

/-- Written from the spec's words: "JPEG picks shrink ∈ {1,2,4,8} =
largest ≤ 1/scale" — the largest element of {1, 2, 4, 8} that does not
exceed `t` (and 1 when none does). -/
def largestStdShrinkLE (t : ℚ) : Int :=
  if 8 ≤ t then 8
  else if 4 ≤ t then 4
  else if 2 ≤ t then 2
  else 1

/-! ## Claims -/

/-- C4: for every probed width and height, `checkDimensions` returns
`SourceDimensionsTooBig` exactly when a positive max source dimension is
configured and either axis exceeds it; otherwise it returns
`SourceResolutionTooBig` exactly when `width*height` exceeds the configured
max source resolution; otherwise it returns no error. -/
theorem C4_checkDimensions_characterisation (maxD maxR w h : Int) :
    (checkDimensions maxD maxR w h = some errSourceDimensionsTooBig ↔
      0 < maxD ∧ (maxD < w ∨ maxD < h)) ∧
    (checkDimensions maxD maxR w h = some errSourceResolutionTooBig ↔
      ¬(0 < maxD ∧ (maxD < w ∨ maxD < h)) ∧ maxR < w * h) ∧
    (checkDimensions maxD maxR w h = none ↔
      ¬(0 < maxD ∧ (maxD < w ∨ maxD < h)) ∧ ¬(maxR < w * h)) := by
  unfold checkDimensions
  split_ifs with h1 h2 <;>
    simp_all [errSourceDimensionsTooBig, errSourceResolutionTooBig, newError]

/-- C10: with an empty configured secret, `checkSecret` accepts every
`Authorization` header (the result does not depend on the header); with a
non-empty secret it accepts exactly the header `"Bearer "` followed by the
secret. -/
theorem C10_checkSecret_characterisation (secret s : List Char) :
    (secret = [] → checkSecret secret s = true) ∧
    (secret ≠ [] → (checkSecret secret s = true ↔ s = bearerTok ++ secret)) := by
  refine ⟨fun h => by simp [checkSecret, h], fun h => ?_⟩
  have hlen : ¬secret.length = 0 := by simpa [List.length_eq_zero] using h
  simp only [checkSecret, if_neg hlen, Bool.and_eq_true]
  constructor
  · rintro ⟨hp, hc⟩
    rw [List.isPrefixOf_iff_prefix] at hp
    obtain ⟨t, ht⟩ := hp
    have hdrop : goTrimPref bearerTok s = t := by
      rw [goTrimPref, if_pos (List.isPrefixOf_iff_prefix.mpr ⟨t, ht⟩), ← ht, List.drop_left]
    rw [hdrop] at hc
    have hts : t = secret := by simpa [constantTimeCompareIsOne] using hc
    rw [← ht, hts]
  · intro hs
    subst hs
    have hp : bearerTok.isPrefixOf (bearerTok ++ secret) = true :=
      List.isPrefixOf_iff_prefix.mpr (List.prefix_append _ _)
    refine ⟨hp, ?_⟩
    simp [constantTimeCompareIsOne, goTrimPref, hp, List.drop_left]

/-- Witness for C10 at concrete inputs. -/
theorem C10_checkSecret_witness :
    checkSecret [] "anything".toList = true ∧
    (checkSecret "s".toList "Bearer s".toList = true ↔
      "Bearer s".toList = bearerTok ++ "s".toList) :=
  ⟨(C10_checkSecret_characterisation [] "anything".toList).1 rfl,
   (C10_checkSecret_characterisation "s".toList "Bearer s".toList).2 (by decide)⟩

/-- C2: the claim states that a non-numeric width or height argument makes
`applyWidthOption`/`applyHeightOption` return an error and leave the field
unchanged.  The code does the opposite: `strconv.Atoi("abc")` fails and
returns 0, the recovery conditions `err == nil || w >= 0` (resp.
`err == nil || po.Height >= 0`) are then satisfied, so the functions
silently overwrite the field with 0 and return no error. -/
theorem C2_nonnumeric_silently_accepted :
    goAtoi "abc" = (0, false) ∧
    applyWidthOption ⟨.fit, 5, 0, .center, false, .jpeg⟩ ["abc"] =
      Except.ok ⟨.fit, 0, 0, .center, false, .jpeg⟩ ∧
    applyHeightOption ⟨.fit, 0, 5, .center, false, .jpeg⟩ ["abc"] =
      Except.ok ⟨.fit, 0, 0, .center, false, .jpeg⟩ :=
  ⟨rfl, rfl, rfl⟩

/-- C1 counterexample: at a well-formed seven-segment path whose signature
fails verification, `parsePath` rejects, but `ServeHTTP` maps the failure
to status 404, not 403, so the original claim's "response status is 403"
is false on this code. -/
theorem C1_invalid_signature_counterexample :
    (parsePath (fun _ _ => false) (fun _ => none) (fun _ => true)
        "/sig/fit/100/100/ce/0/aGVsbG8".toList).err = some "Invalid token" ∧
    (parsePathFailureError "Invalid token").statusCode = 404 ∧
    ¬(parsePathFailureError "Invalid token").statusCode = 403 := by
  refine ⟨rfl, rfl, by decide⟩

/-- C1 (amended): a request whose URL signature fails verification is
rejected by `parsePath` before any processing option is applied (the
options returned are still the zero value), and `ServeHTTP` maps every
`parsePath` failure — the signature failure included — to status 404,
never to another status. -/
theorem C1_invalid_signature_rejected_404 (sigOK : List Char → List Char → Bool)
    (b64 : List Char → Option (List Char)) (saveSupp : imageTypeV1 → Bool)
    (path : List Char)
    (hlen : 7 ≤ (List.splitOn '/' (goTrimPref ['/'] path)).length)
    (hsig : sigOK ((List.splitOn '/' (goTrimPref ['/'] path)).headD [])
        (goTrimPref ('/' :: (List.splitOn '/' (goTrimPref ['/'] path)).headD []) path)
        = false) :
    parsePath sigOK b64 saveSupp path =
      ⟨[], zeroProcessingOptions, some "Invalid token"⟩ ∧
    ∀ msg, (parsePathFailureError msg).statusCode = 404 := by
  have hnl : ¬(List.splitOn '/' (goTrimPref ['/'] path)).length < 7 := by omega
  refine ⟨?_, fun msg => rfl⟩
  simp only [parsePath, validatePathOracle, hsig, if_neg hnl, Bool.false_eq_true,
    if_false]

/-- Witness for C1's amended theorem at a concrete path. -/
theorem C1_invalid_signature_rejected_404_witness :
    parsePath (fun _ _ => false) (fun _ => none) (fun _ => true)
        "/tok/fill/1/2/no/1/aGVsbG8".toList =
      ⟨[], zeroProcessingOptions, some "Invalid token"⟩ ∧
    ∀ msg, (parsePathFailureError msg).statusCode = 404 :=
  C1_invalid_signature_rejected_404 _ _ _ _ (by decide) (by decide)

/-- The total number of bytes a stream delivers. -/
def totalBytes (stream : List readStep) : Int :=
  (stream.map (fun s => (s.n : Int))).sum

/-- On a stream whose reads carry no underlying error, the limiter injects
`errSourceFileTooBig` exactly when the running byte total exceeds the
budget. -/
theorem limitRun_firstErr_tooBig_iff (stream : List readStep) :
    ∀ left : Int, 0 ≤ left → (∀ s ∈ stream, s.err = none) →
      (firstErr (limitRun left stream) = some readErr.tooBig ↔
        left < totalBytes stream) := by
  induction stream with
  | nil =>
    intro left hl _
    simp only [limitRun, firstErr, totalBytes, List.map_nil, List.sum_nil]
    constructor
    · intro h; cases h
    · intro h; omega
  | cons s rest ih =>
    intro left hl hclean
    have hs : s.err = none := hclean s (List.mem_cons_self _ _)
    have hrest : ∀ x ∈ rest, x.err = none := fun x hx => hclean x (List.mem_cons_of_mem _ hx)
    have hsum : 0 ≤ totalBytes rest := by
      unfold totalBytes
      apply List.sum_nonneg
      intro x hx
      simp only [List.mem_map] at hx
      obtain ⟨a, _, rfl⟩ := hx
      exact Int.natCast_nonneg _
    by_cases hneg : left - (s.n : Int) < 0
    · simp only [limitRun, limitRead, hs, hneg, and_self, if_true, firstErr, totalBytes,
        List.map_cons, List.sum_cons]
      have hsum2 : 0 ≤ (List.map (fun s => (s.n : Int)) rest).sum := hsum
      constructor
      · intro _; omega
      · intro _; trivial
    · simp only [limitRun, limitRead, hs, hneg, and_false, if_false, firstErr]
      rw [ih (left - (s.n : Int)) (by omega) hrest]
      simp only [totalBytes, List.map_cons, List.sum_cons]
      constructor <;> (intro h; omega)

/-- C3 counterexample: budget 10, declared length 5 (within budget), and a
stream that delivers 11 bytes without an underlying error before its EOF.
The probe consumes the first read; the limiter trips during the body read,
but `readAndCheckImage` returns the 404 `SourceImageUnreachable` wrapper
(carrying the too-big message), not the 422 `SourceFileTooBig` error the
claim names. -/
theorem C3_limiter_wrapped_counterexample :
    readAndCheckImage 10 5 [⟨5, none⟩, ⟨6, none⟩, ⟨0, some .eof⟩] ⟨1, none⟩ =
      some (newError 404 "Source image file is too big" "Source image is unreachable") ∧
    ¬readAndCheckImage 10 5 [⟨5, none⟩, ⟨6, none⟩, ⟨0, some .eof⟩] ⟨1, none⟩ =
      some errSourceFileTooBig ∧
    (newError 404 "Source image file is too big" "Source image is unreachable").statusCode
      ≠ 422 :=
  ⟨rfl, by decide, by decide⟩

/-- C3 (amended): with a maximum source file size configured, (a) whenever
the declared content length exceeds the maximum, `readAndCheckImage` fails
with `SourceFileTooBig` without reading the body (the result is the same
for every stream); (b) on an error-free stream the limiter trips exactly
when the running byte total exceeds the budget, and when that happens
after a successful header probe `readAndCheckImage` fails — but with the
404 `SourceImageUnreachable` error carrying the `SourceFileTooBig`
message, not with the 422 `SourceFileTooBig` error itself. -/
theorem C3_size_guards_amended (maxSrc contentLength : Int) (stream : List readStep)
    (probe : probeSpec) (hmax : 0 < maxSrc) :
    (maxSrc < contentLength →
      ∀ s2 p2, readAndCheckImage maxSrc contentLength s2 p2 = some errSourceFileTooBig) ∧
    ((∀ s ∈ stream, s.err = none) →
      (firstErr (limitRun maxSrc stream) = some readErr.tooBig ↔
        maxSrc < totalBytes stream)) ∧
    (contentLength ≤ maxSrc →
      firstErr ((limitRun maxSrc stream).take probe.reads) = none →
      probe.verdict = none →
      firstErr ((limitRun maxSrc stream).drop probe.reads) = some readErr.tooBig →
      readAndCheckImage maxSrc contentLength stream probe =
        some (newError 404 errSourceFileTooBig.message msgSourceImageIsUnreachable)) := by
  refine ⟨?_, ?_, ?_⟩
  · intro hcl s2 p2
    unfold readAndCheckImage
    rw [if_pos ⟨hmax, hcl⟩]
  · intro hclean
    exact limitRun_firstErr_tooBig_iff stream maxSrc (le_of_lt hmax) hclean
  · intro hcl hprobe hverdict hbody
    have hne : ¬(0 < maxSrc ∧ maxSrc < contentLength) := by omega
    simp only [readAndCheckImage, if_neg hne, if_pos hmax, hprobe, hverdict,
      readFromResult, hbody, readErrMsg]

/-- Witness for C3's amended theorem at concrete inputs. -/
theorem C3_size_guards_witness :
    readAndCheckImage 10 11 [⟨3, none⟩] ⟨0, none⟩ = some errSourceFileTooBig ∧
    (firstErr (limitRun 10 [⟨5, none⟩, ⟨6, none⟩]) = some readErr.tooBig ↔
      10 < totalBytes [⟨5, none⟩, ⟨6, none⟩]) ∧
    readAndCheckImage 10 5 [⟨5, none⟩, ⟨6, none⟩, ⟨0, some .eof⟩] ⟨1, none⟩ =
      some (newError 404 errSourceFileTooBig.message msgSourceImageIsUnreachable) :=
  ⟨(C3_size_guards_amended 10 11 [⟨3, none⟩] ⟨0, none⟩ (by decide)).1 (by decide)
      [⟨3, none⟩] ⟨0, none⟩,
   (C3_size_guards_amended 10 5 [⟨5, none⟩, ⟨6, none⟩] ⟨1, none⟩ (by decide)).2.1
      (by decide),
   (C3_size_guards_amended 10 5 [⟨5, none⟩, ⟨6, none⟩, ⟨0, some .eof⟩] ⟨1, none⟩
      (by decide)).2.2 (by decide) (by decide) (by decide) (by decide)⟩

/-- The shrink factor computed by the first block of `calcScale` is
positive whenever the source dimensions are positive and the requested
dimensions are non-negative. -/
theorem calcScaleShrink_pos (width height : Int) (po : processingOptionsV2)
    (hw : 0 < width) (hh : 0 < height) (hpw : 0 ≤ po.Width) (hph : 0 ≤ po.Height) :
    0 < calcScaleShrink width height po := by
  have hsw : (0:ℚ) < (width : ℚ) := by exact_mod_cast hw
  have hsh : (0:ℚ) < (height : ℚ) := by exact_mod_cast hh
  have hdw : po.Width ≠ 0 → (0:ℚ) < (po.Width : ℚ) := fun hne => by
    exact_mod_cast lt_of_le_of_ne hpw (Ne.symm hne)
  have hdh : po.Height ≠ 0 → (0:ℚ) < (po.Height : ℚ) := fun hne => by
    exact_mod_cast lt_of_le_of_ne hph (Ne.symm hne)
  unfold calcScaleShrink
  dsimp only
  split_ifs <;>
    first
      | exact one_pos
      | exact div_pos hsh hsh
      | exact div_pos hsw hsw
      | exact div_pos hsh (hdh (by assumption))
      | exact div_pos hsw (hdw (by assumption))
      | exact lt_max_of_lt_left (div_pos hsw (hdw (by assumption)))
      | exact lt_min (div_pos hsw (hdw (by assumption))) (div_pos hsh (hdh (by assumption)))

/-- The final source-size clamps keep the shrink factor positive, below
both source dimensions, and (when everything upstream is at least 1) at
least 1. -/
theorem calcScaleSizeClamp_facts (w h x : ℚ) (hw : 0 < w) (hh : 0 < h) (hx : 0 < x) :
    0 < calcScaleSizeClamp w h x ∧ calcScaleSizeClamp w h x ≤ w ∧
      calcScaleSizeClamp w h x ≤ h ∧
      (1 ≤ x → 1 ≤ w → 1 ≤ h → 1 ≤ calcScaleSizeClamp w h x) := by
  unfold calcScaleSizeClamp
  dsimp only
  by_cases hA : w < x
  · rw [if_pos hA]
    by_cases hB : h < w
    · rw [if_pos hB]
      exact ⟨hh, le_of_lt hB, le_refl h, fun _ _ hh1 => hh1⟩
    · rw [if_neg hB]
      exact ⟨hw, le_refl w, not_lt.mp hB, fun _ hw1 _ => hw1⟩
  · rw [if_neg hA]
    by_cases hB : h < x
    · rw [if_pos hB]
      exact ⟨hh, le_trans (le_of_lt hB) (not_lt.mp hA), le_refl h, fun _ _ hh1 => hh1⟩
    · rw [if_neg hB]
      exact ⟨hx, not_lt.mp hA, not_lt.mp hB, fun hx1 _ _ => hx1⟩

/-- C5 (amended): for positive source dimensions and the data-model
invariants `Width ≥ 0`, `Height ≥ 0`, `Dpr > 0`, the scale returned by
`calcScale` satisfies `srcW*scale ≥ 1` and `srcH*scale ≥ 1`; and whenever
`Enlarge` is false, the source type is not SVG **and `Dpr ≤ 1`**, the
returned scale never exceeds 1.  (Without the `Dpr ≤ 1` bound the second
part is false: the enlarge clamp runs before the division by `Dpr`.) -/
theorem C5_calcScale_amended (width height : Int) (po : processingOptionsV2)
    (imgtype : imageType27) (hw : 0 < width) (hh : 0 < height)
    (hpw : 0 ≤ po.Width) (hph : 0 ≤ po.Height) (hdpr : 0 < po.Dpr) :
    (1 ≤ (width : ℚ) * calcScale width height po imgtype ∧
      1 ≤ (height : ℚ) * calcScale width height po imgtype) ∧
    (po.Enlarge = false → imgtype ≠ .svg → po.Dpr ≤ 1 →
      calcScale width height po imgtype ≤ 1) := by
  have hsw : (0:ℚ) < (width : ℚ) := by exact_mod_cast hw
  have hsh : (0:ℚ) < (height : ℚ) := by exact_mod_cast hh
  have hw1 : (1:ℚ) ≤ (width : ℚ) := by exact_mod_cast (by omega : (1:Int) ≤ width)
  have hh1 : (1:ℚ) ≤ (height : ℚ) := by exact_mod_cast (by omega : (1:Int) ≤ height)
  have hs0 := calcScaleShrink_pos width height po hw hh hpw hph
  have hs1 : 0 < calcScaleEnlargeClamp po imgtype (calcScaleShrink width height po) := by
    unfold calcScaleEnlargeClamp
    split_ifs
    · exact one_pos
    · exact hs0
  have h2pos :
      0 < calcScaleEnlargeClamp po imgtype (calcScaleShrink width height po) / po.Dpr :=
    div_pos hs1 hdpr
  obtain ⟨hcpos, hcw, hch, hc1⟩ :=
    calcScaleSizeClamp_facts (width : ℚ) (height : ℚ)
      (calcScaleEnlargeClamp po imgtype (calcScaleShrink width height po) / po.Dpr)
      hsw hsh h2pos
  refine ⟨⟨?_, ?_⟩, ?_⟩
  · unfold calcScale
    dsimp only
    rw [mul_one_div]
    exact (one_le_div hcpos).mpr hcw
  · unfold calcScale
    dsimp only
    rw [mul_one_div]
    exact (one_le_div hcpos).mpr hch
  · intro hE hsvg hdle
    have hs1ge : 1 ≤ calcScaleEnlargeClamp po imgtype (calcScaleShrink width height po) := by
      unfold calcScaleEnlargeClamp
      split_ifs with hc
      · exact le_refl 1
      · by_contra hx
        push_neg at hx
        exact hc ⟨by simp [hE], hx, hsvg⟩
    have h2ge :
        1 ≤ calcScaleEnlargeClamp po imgtype (calcScaleShrink width height po) / po.Dpr := by
      rw [one_le_div hdpr]
      exact le_trans hdle hs1ge
    unfold calcScale
    dsimp only
    rw [div_le_one hcpos]
    exact hc1 h2ge hw1 hh1

/-- C5 counterexample: with `Enlarge = false`, a non-SVG source and
`Dpr = 2`, a 100×100 source requested at 100×100 yields scale 2 > 1 — the
enlarge clamp runs before the division by `Dpr`, so the original claim's
"scale never exceeds 1" is false. -/
theorem C5_dpr_counterexample :
    calcScale 100 100
      ⟨.fill, 100, 100, 2, false, .jpeg, false, false, ⟨0, 0, ⟨.center, 0, 0⟩⟩⟩ .jpeg = 2 ∧
    ¬(calcScale 100 100
      ⟨.fill, 100, 100, 2, false, .jpeg, false, false, ⟨0, 0, ⟨.center, 0, 0⟩⟩⟩ .jpeg ≤ 1) := by
  have h : calcScale 100 100
      ⟨.fill, 100, 100, 2, false, .jpeg, false, false, ⟨0, 0, ⟨.center, 0, 0⟩⟩⟩ .jpeg = 2 := by
    unfold calcScale calcScaleShrink calcScaleEnlargeClamp calcScaleSizeClamp
    norm_num
  refine ⟨h, ?_⟩
  rw [h]
  norm_num

/-- Witness for C5's amended theorem at a concrete input. -/
theorem C5_calcScale_witness :
    (1 ≤ (3:ℚ) * calcScale 3 2
        ⟨.fit, 5, 0, 1, false, .png, false, false, ⟨0, 0, ⟨.center, 0, 0⟩⟩⟩ .png ∧
      1 ≤ (2:ℚ) * calcScale 3 2
        ⟨.fit, 5, 0, 1, false, .png, false, false, ⟨0, 0, ⟨.center, 0, 0⟩⟩⟩ .png) ∧
    calcScale 3 2
        ⟨.fit, 5, 0, 1, false, .png, false, false, ⟨0, 0, ⟨.center, 0, 0⟩⟩⟩ .png ≤ 1 :=
  ⟨(C5_calcScale_amended 3 2
      ⟨.fit, 5, 0, 1, false, .png, false, false, ⟨0, 0, ⟨.center, 0, 0⟩⟩⟩ .png
      (by decide) (by decide) (by decide) (by decide) (by norm_num)).1,
   (C5_calcScale_amended 3 2
      ⟨.fit, 5, 0, 1, false, .png, false, false, ⟨0, 0, ⟨.center, 0, 0⟩⟩⟩ .png
      (by decide) (by decide) (by decide) (by decide) (by norm_num)).2
      rfl (by decide) (by norm_num)⟩

/-- C6: when the requested format is `Unknown`, `processImage` resolves the
target to WebP if `PreferWebP` is set and WebP is saveable, else to the
source type if that type is saveable and good for the web, else to JPEG;
when the requested format is known, `EnforceWebP` with WebP saveable
overrides it to WebP, and otherwise the requested format stands. -/
theorem C6_format_resolution (saveSupp : imageType27 → Bool)
    (po : processingOptionsV2) (srcType : imageType27) :
    (po.Format = .unknown →
      resolveFormat saveSupp po srcType =
        (if po.PreferWebP = true ∧ imageTypeSaveSupport saveSupp .webp = true then .webp
         else if imageTypeSaveSupport saveSupp srcType = true ∧
             imageTypeGoodForWeb srcType = true then srcType
         else .jpeg)) ∧
    (po.Format ≠ .unknown → po.EnforceWebP = true →
      imageTypeSaveSupport saveSupp .webp = true →
      resolveFormat saveSupp po srcType = .webp) ∧
    (po.Format ≠ .unknown →
      ¬(po.EnforceWebP = true ∧ imageTypeSaveSupport saveSupp .webp = true) →
      resolveFormat saveSupp po srcType = po.Format) := by
  refine ⟨?_, ?_, ?_⟩
  · intro h
    unfold resolveFormat
    rw [if_pos h]
    simp only [Bool.and_eq_true]
  · intro h hE hW
    unfold resolveFormat
    rw [if_neg h, if_pos]
    rw [Bool.and_eq_true]
    exact ⟨hE, hW⟩
  · intro h hne
    unfold resolveFormat
    rw [if_neg h, if_neg]
    rw [Bool.and_eq_true]
    exact hne

/-- Witness for C6 at concrete inputs. -/
theorem C6_format_resolution_witness :
    (resolveFormat (fun _ => true)
        ⟨.fit, 0, 0, 1, false, .unknown, true, false, ⟨0, 0, ⟨.center, 0, 0⟩⟩⟩ .jpeg =
      (if true = true ∧ imageTypeSaveSupport (fun _ => true) .webp = true then .webp
       else if imageTypeSaveSupport (fun _ => true) .jpeg = true ∧
           imageTypeGoodForWeb .jpeg = true then .jpeg
       else imageType27.jpeg)) ∧
    resolveFormat (fun _ => true)
        ⟨.fit, 0, 0, 1, false, .png, false, true, ⟨0, 0, ⟨.center, 0, 0⟩⟩⟩ .jpeg = .webp :=
  ⟨(C6_format_resolution (fun _ => true)
      ⟨.fit, 0, 0, 1, false, .unknown, true, false, ⟨0, 0, ⟨.center, 0, 0⟩⟩⟩ .jpeg).1 rfl,
   (C6_format_resolution (fun _ => true)
      ⟨.fit, 0, 0, 1, false, .png, false, true, ⟨0, 0, ⟨.center, 0, 0⟩⟩⟩ .jpeg).2.1
      (by decide) rfl (by decide)⟩

/-- C7: whenever `transformAnimated` succeeds, the output's `n-pages`
metadata (the number of frames extracted, transformed and re-joined)
equals `min(source frame count, maxAnimationFrames)`, and the output's
`gif-delay` and `gif-loop` metadata equal the source's exactly. -/
theorem C7_transformAnimated_metadata (maxAnimationFrames maxD maxR : Int)
    (disableShrinkOnLoad : Bool) (po : processingOptionsV2) (imgtype : imageType27)
    (img : animMeta) (reloadW reloadPageH : Int) (tf : Int → Int → Int × Int)
    (out : animMeta)
    (hout : transformAnimated maxAnimationFrames maxD maxR disableShrinkOnLoad po
        imgtype img reloadW reloadPageH tf = Except.ok out) :
    out.nPages = min (Int.tdiv img.height img.pageHeight) maxAnimationFrames ∧
    out.gifDelay = img.gifDelay ∧
    out.gifLoop = img.gifLoop := by
  unfold transformAnimated at hout
  dsimp only at hout
  split at hout
  · cases hout
  · rw [Except.ok.injEq] at hout
    subst hout
    refine ⟨rfl, ?_, ?_⟩ <;>
      (dsimp only
       repeat' split
       all_goals rfl)

/-- Witness for C7 at a concrete animated source: 3 source frames of
height 10, a cap of 2 frames, delay 7 and loop 2. -/
theorem C7_transformAnimated_witness :
    (animMeta.mk 100 20 10 2 7 2).nPages =
      min (Int.tdiv (animMeta.mk 100 30 10 3 7 2).height
        (animMeta.mk 100 30 10 3 7 2).pageHeight) 2 ∧
    (animMeta.mk 100 20 10 2 7 2).gifDelay = (animMeta.mk 100 30 10 3 7 2).gifDelay ∧
    (animMeta.mk 100 20 10 2 7 2).gifLoop = (animMeta.mk 100 30 10 3 7 2).gifLoop :=
  C7_transformAnimated_metadata 2 0 10000 false
    ⟨.fit, 0, 0, 1, false, .unknown, false, false, ⟨1, 0, ⟨.center, 0, 0⟩⟩⟩ .gif
    ⟨100, 30, 10, 3, 7, 2⟩ 100 10 (fun w h => (w, h)) ⟨100, 20, 10, 2, 7, 2⟩ rfl

/-- For a non-negative argument Go's `int(...)` truncation is the floor,
so integer thresholds transfer through it. -/
theorem goTruncQ_le_iff (t : ℚ) (ht : 0 ≤ t) (n : ℤ) :
    n ≤ goTruncQ t ↔ (n : ℚ) ≤ t := by
  rw [goTruncQ, if_pos ht]
  exact Int.le_floor

/-- C8 counterexample: at `scale = 1/8`, the v1/v2.0 `calcShink` returns 4
for JPEG, while the largest element of {1,2,4,8} not exceeding
`1/scale = 8` is 8 — the older revisions use doubled thresholds, so the
claim is false for the cited `calcShink` functions. -/
theorem C8_calcShink_counterexample :
    calcShink (1/8 : ℚ) .jpeg = 4 ∧
    calcShinkV20 (1/8 : ℚ) .jpeg = 4 ∧
    largestStdShrinkLE (1 / (1/8 : ℚ)) = 8 ∧
    (4 : Int) ≠ 8 := by
  have h8 : (1 : ℚ) / (1/8 : ℚ) = 8 := by norm_num
  have htr : goTruncQ (1 / (1/8 : ℚ)) = 8 := by
    rw [h8, goTruncQ, if_pos (by norm_num)]
    norm_num
  refine ⟨?_, ?_, ?_, by decide⟩
  · unfold calcShink
    rw [htr]
    norm_num
  · unfold calcShinkV20
    rw [htr]
    norm_num
  · rw [h8]
    unfold largestStdShrinkLE
    norm_num

/-- C8 (amended): for every `0 < scale ≤ 1`, the v2.7 `calcJpegShink`
equals the largest element of {1,2,4,8} that does not exceed `1/scale`
(`largestStdShrinkLE` is that largest element: it is one of 1, 2, 4, 8, it
does not exceed `1/scale`, and it dominates every element that does not);
the v1/v2.0 `calcShink` functions instead return the largest element of
{1,2,4,8} that does not exceed `(1/scale)/2` — their thresholds are
doubled. -/
theorem C8_jpeg_shrink_amended (scale : ℚ) (h0 : 0 < scale) (h1 : scale ≤ 1) :
    (∀ imgtype : imageType27, calcJpegShink scale imgtype = largestStdShrinkLE (1 / scale)) ∧
    ((largestStdShrinkLE (1 / scale) = 1 ∨ largestStdShrinkLE (1 / scale) = 2 ∨
        largestStdShrinkLE (1 / scale) = 4 ∨ largestStdShrinkLE (1 / scale) = 8) ∧
      ((largestStdShrinkLE (1 / scale) : ℚ) ≤ 1 / scale) ∧
      (∀ e : Int, (e = 1 ∨ e = 2 ∨ e = 4 ∨ e = 8) → (e : ℚ) ≤ 1 / scale →
        e ≤ largestStdShrinkLE (1 / scale))) ∧
    (calcShink scale .jpeg = largestStdShrinkLE (1 / scale / 2) ∧
      calcShinkV20 scale .jpeg = largestStdShrinkLE (1 / scale / 2)) := by
  have htpos : (0:ℚ) < 1 / scale := one_div_pos.mpr h0
  have ht1 : (1:ℚ) ≤ 1 / scale := (one_le_div h0).mpr h1
  have key : ∀ n : ℤ, n ≤ goTruncQ (1 / scale) ↔ (n : ℚ) ≤ 1 / scale :=
    goTruncQ_le_iff _ (le_of_lt htpos)
  have k2 := key 2
  have k4 := key 4
  have k8 := key 8
  have k16 := key 16
  push_cast at k2 k4 k8 k16
  refine ⟨?_, ⟨?_, ?_, ?_⟩, ?_, ?_⟩
  · intro imgtype
    unfold calcJpegShink largestStdShrinkLE
    dsimp only
    rcases le_or_lt (8:ℚ) (1/scale) with h8 | h8
    · rw [if_pos (k8.mpr h8), if_pos h8]
    · rw [if_neg (fun hc => absurd (k8.mp hc) (not_le.mpr h8)), if_neg (not_le.mpr h8)]
      rcases le_or_lt (4:ℚ) (1/scale) with h4 | h4
      · rw [if_pos (k4.mpr h4), if_pos h4]
      · rw [if_neg (fun hc => absurd (k4.mp hc) (not_le.mpr h4)), if_neg (not_le.mpr h4)]
        rcases le_or_lt (2:ℚ) (1/scale) with h2 | h2
        · rw [if_pos (k2.mpr h2), if_pos h2]
        · rw [if_neg (fun hc => absurd (k2.mp hc) (not_le.mpr h2)),
            if_neg (not_le.mpr h2)]
  · unfold largestStdShrinkLE
    split_ifs <;> omega
  · unfold largestStdShrinkLE
    split_ifs with a b c
    · push_cast
      exact a
    · push_cast
      exact b
    · push_cast
      exact c
    · push_cast
      exact ht1
  · intro e he hle
    unfold largestStdShrinkLE
    rcases he with rfl | rfl | rfl | rfl <;>
      split_ifs <;> first | omega | (exfalso; linarith)
  · unfold calcShink largestStdShrinkLE
    dsimp only
    rw [if_neg (by simp)]
    rcases le_or_lt (16:ℚ) (1/scale) with h16 | h16
    · rw [if_pos (k16.mpr h16), if_pos (by linarith : (8:ℚ) ≤ 1 / scale / 2)]
    · rw [if_neg (fun hc => absurd (k16.mp hc) (not_le.mpr h16)),
        if_neg (by intro hc; linarith : ¬(8:ℚ) ≤ 1 / scale / 2)]
      rcases le_or_lt (8:ℚ) (1/scale) with h8 | h8
      · rw [if_pos (k8.mpr h8), if_pos (by linarith : (4:ℚ) ≤ 1 / scale / 2)]
      · rw [if_neg (fun hc => absurd (k8.mp hc) (not_le.mpr h8)),
          if_neg (by intro hc; linarith : ¬(4:ℚ) ≤ 1 / scale / 2)]
        rcases le_or_lt (4:ℚ) (1/scale) with h4 | h4
        · rw [if_pos (k4.mpr h4), if_pos (by linarith : (2:ℚ) ≤ 1 / scale / 2)]
        · rw [if_neg (fun hc => absurd (k4.mp hc) (not_le.mpr h4)),
            if_neg (by intro hc; linarith : ¬(2:ℚ) ≤ 1 / scale / 2)]
  · unfold calcShinkV20 largestStdShrinkLE
    dsimp only
    rcases le_or_lt (16:ℚ) (1/scale) with h16 | h16
    · rw [if_pos (k16.mpr h16), if_pos (by linarith : (8:ℚ) ≤ 1 / scale / 2)]
    · rw [if_neg (fun hc => absurd (k16.mp hc) (not_le.mpr h16)),
        if_neg (by intro hc; linarith : ¬(8:ℚ) ≤ 1 / scale / 2)]
      rcases le_or_lt (8:ℚ) (1/scale) with h8 | h8
      · rw [if_pos (k8.mpr h8), if_pos (by linarith : (4:ℚ) ≤ 1 / scale / 2)]
      · rw [if_neg (fun hc => absurd (k8.mp hc) (not_le.mpr h8)),
          if_neg (by intro hc; linarith : ¬(4:ℚ) ≤ 1 / scale / 2)]
        rcases le_or_lt (4:ℚ) (1/scale) with h4 | h4
        · rw [if_pos (k4.mpr h4), if_pos (by linarith : (2:ℚ) ≤ 1 / scale / 2)]
        · rw [if_neg (fun hc => absurd (k4.mp hc) (not_le.mpr h4)),
            if_neg (by intro hc; linarith : ¬(2:ℚ) ≤ 1 / scale / 2)]

/-- Witness for C8's amended theorem at `scale = 1/5`. -/
theorem C8_jpeg_shrink_witness :
    (∀ imgtype : imageType27,
      calcJpegShink (1/5 : ℚ) imgtype = largestStdShrinkLE (1 / (1/5 : ℚ))) ∧
    ((largestStdShrinkLE (1 / (1/5 : ℚ)) = 1 ∨ largestStdShrinkLE (1 / (1/5 : ℚ)) = 2 ∨
        largestStdShrinkLE (1 / (1/5 : ℚ)) = 4 ∨ largestStdShrinkLE (1 / (1/5 : ℚ)) = 8) ∧
      ((largestStdShrinkLE (1 / (1/5 : ℚ)) : ℚ) ≤ 1 / (1/5 : ℚ)) ∧
      (∀ e : Int, (e = 1 ∨ e = 2 ∨ e = 4 ∨ e = 8) → (e : ℚ) ≤ 1 / (1/5 : ℚ) →
        e ≤ largestStdShrinkLE (1 / (1/5 : ℚ)))) ∧
    (calcShink (1/5 : ℚ) .jpeg = largestStdShrinkLE (1 / (1/5 : ℚ) / 2) ∧
      calcShinkV20 (1/5 : ℚ) .jpeg = largestStdShrinkLE (1 / (1/5 : ℚ) / 2)) :=
  C8_jpeg_shrink_amended (1/5 : ℚ) (by norm_num) (by norm_num)

set_option linter.unusedVariables false in
/-- C9: for every image size, every crop size that is positive and fits in
the image, and every gravity (offsets and focus-point coordinates
included), `calcCrop` returns a top-left corner with
`0 ≤ left ≤ width - cropWidth` and `0 ≤ top ≤ height - cropHeight` — the
crop rectangle lies inside the image — in the v2.7 revision and in the
v2.0 revision alike. -/
theorem C9_calcCrop_in_bounds (width height cropWidth cropHeight : Int)
    (gravity : gravityOpts) (hcw : 0 < cropWidth) (hcwle : cropWidth ≤ width)
    (hch : 0 < cropHeight) (hchle : cropHeight ≤ height) :
    (0 ≤ (calcCrop width height cropWidth cropHeight gravity).1 ∧
      (calcCrop width height cropWidth cropHeight gravity).1 ≤ width - cropWidth ∧
      0 ≤ (calcCrop width height cropWidth cropHeight gravity).2 ∧
      (calcCrop width height cropWidth cropHeight gravity).2 ≤ height - cropHeight) ∧
    (0 ≤ (calcCropV20 width height cropWidth cropHeight gravity).1 ∧
      (calcCropV20 width height cropWidth cropHeight gravity).1 ≤ width - cropWidth ∧
      0 ≤ (calcCropV20 width height cropWidth cropHeight gravity).2 ∧
      (calcCropV20 width height cropWidth cropHeight gravity).2 ≤ height - cropHeight) := by
  have htw : Int.tdiv (width - cropWidth + 1) 2 = (width - cropWidth + 1) / 2 :=
    Int.tdiv_eq_ediv (by omega) (by norm_num)
  have hth : Int.tdiv (height - cropHeight + 1) 2 = (height - cropHeight + 1) / 2 :=
    Int.tdiv_eq_ediv (by omega) (by norm_num)
  constructor
  · unfold calcCrop
    split_ifs <;> refine ⟨?_, ?_, ?_, ?_⟩ <;> dsimp only <;> omega
  · unfold calcCropV20
    rw [htw, hth]
    split_ifs <;> refine ⟨?_, ?_, ?_, ?_⟩ <;> dsimp only <;> omega

/-- Witness for C9 at a concrete input (south-east gravity with
offsets). -/
theorem C9_calcCrop_witness :
    (0 ≤ (calcCrop 100 80 40 30 ⟨.southEast, 7, -3⟩).1 ∧
      (calcCrop 100 80 40 30 ⟨.southEast, 7, -3⟩).1 ≤ 100 - 40 ∧
      0 ≤ (calcCrop 100 80 40 30 ⟨.southEast, 7, -3⟩).2 ∧
      (calcCrop 100 80 40 30 ⟨.southEast, 7, -3⟩).2 ≤ 80 - 30) ∧
    (0 ≤ (calcCropV20 100 80 40 30 ⟨.southEast, 7, -3⟩).1 ∧
      (calcCropV20 100 80 40 30 ⟨.southEast, 7, -3⟩).1 ≤ 100 - 40 ∧
      0 ≤ (calcCropV20 100 80 40 30 ⟨.southEast, 7, -3⟩).2 ∧
      (calcCropV20 100 80 40 30 ⟨.southEast, 7, -3⟩).2 ≤ 80 - 30) :=
  C9_calcCrop_in_bounds 100 80 40 30 ⟨.southEast, 7, -3⟩
    (by decide) (by decide) (by decide) (by decide)
